import Mathlib

/-!
Verification of the RSSI localization simulators (jrugeles/RSSI).

Shallow embedding of the core numeric logic of the two simulator scripts:

* `simulador_octonodo_DF.py`   — namespace `Octonodo`
* `simulador_localizacion_interiores.py` — namespace `Interiores`

Floating point numbers are modelled by the real numbers.  Every call to
`np.random.normal(0, s)` is modelled by `s * z` where `z` is the
corresponding value of an injected stream of standard normal draws (numpy
produces `normal(0, s)` as `s` times a standard draw); the Gaussian
distribution itself is outside the embedding, the data flow of the draws
is what is verified.  `np.log10` applied to a non-positive number has no
real value (numpy yields nan or -inf); such calls are modelled by `none`.
-/

/-- Points of the simulation plane, `(x, y)` in meters. -/
abbrev Point : Type := ℝ × ℝ

/-- Euclidean norm of a 2-vector, as computed by `np.linalg.norm`. -/
noncomputable def norma (v : Point) : ℝ :=
  Real.sqrt (v.1 ^ 2 + v.2 ^ 2)

/-- Four-quadrant arctangent, as computed by `np.arctan2 y x`. -/
noncomputable def arctan2 (y x : ℝ) : ℝ :=
  if 0 < x then Real.arctan (y / x)
  else if x < 0 then
    (if 0 ≤ y then Real.arctan (y / x) + Real.pi else Real.arctan (y / x) - Real.pi)
  else
    (if 0 < y then Real.pi / 2 else if y < 0 then -(Real.pi / 2) else 0)

namespace Octonodo

/-- WiFi frequency in GHz (`self.frecuencia_ghz`). -/
noncomputable def frecuencia_ghz : ℝ := 2.4

/-- Wavelength in meters (`self.lambda_m = 3e8 / (frecuencia_ghz * 1e9)`). -/
noncomputable def lambda_m : ℝ := 3e8 / (frecuencia_ghz * 1e9)

/-- Separation in multiples of the wavelength (`self.separacion_lambda`). -/
noncomputable def separacion_lambda : ℝ := 2

/-- Radius of the circle of fixed nodes
(`self.radio_nodos = separacion_lambda * lambda_m / (2 * sin(pi / 8))`). -/
noncomputable def radio_nodos : ℝ :=
  separacion_lambda * lambda_m / (2 * Real.sin (Real.pi / 8))

/-- Center of the circle of fixed nodes (`self.centro_nodos = [0, 0]`). -/
noncomputable def centro_nodos : Point := ((0 : ℝ), (0 : ℝ))

/-- Radius of the mobile node trajectory (`self.radio_trayectoria`). -/
noncomputable def radio_trayectoria : ℝ := radio_nodos * 2.5

/-- Angular speed of the trajectory (`self.velocidad_trayectoria`). -/
noncomputable def velocidad_trayectoria : ℝ := 0.03

/-- Center of the trajectory (`self.centro_trayectoria = centro_nodos`). -/
noncomputable def centro_trayectoria : Point := centro_nodos

/-- Transmit power in dBm (`self.potencia_tx`). -/
noncomputable def potencia_tx : ℝ := 0

/-- Reference path loss in dB (`self.perdida_ref`). -/
noncomputable def perdida_ref : ℝ := 40

/-- Path loss exponent (`self.exponente_perdida`). -/
noncomputable def exponente_perdida : ℝ := 2

/-- Standard deviation of the distance measurement noise
(`self.error_medicion`). -/
noncomputable def error_medicion : ℝ := 0.2

/-- Positions of the fixed nodes on a circle, `generar_nodos_circulares`:
`np.linspace(0, 2*pi, num, endpoint=False)` yields the angles
`2*pi*i/num` for `i < num`; node `i` is
`centro + radio * (cos angle_i, sin angle_i)`. -/
noncomputable def generar_nodos_circulares (num : ℕ) (centro : Point) (radio : ℝ) :
    List Point :=
  (List.range num).map (fun (i : ℕ) =>
    (centro.1 + radio * Real.cos (2 * Real.pi * i / num),
     centro.2 + radio * Real.sin (2 * Real.pi * i / num)))

/-- The eight fixed nodes of the simulator (`self.nodos_fijos`). -/
noncomputable def nodos_fijos : List Point :=
  generar_nodos_circulares 8 centro_nodos radio_nodos

/-- Euclidean distance between two points, `calcular_distancia`:
`np.sqrt(np.sum((p1 - p2) ** 2))`. -/
noncomputable def calcular_distancia (p1 p2 : Point) : ℝ :=
  Real.sqrt ((p1.1 - p2.1) ^ 2 + (p1.2 - p2.2) ^ 2)

/-- Normalized direction vector from `origen` to `destino` together with the
magnitude, `calcular_vector_direccion`: the zero vector when the magnitude
is not positive. -/
noncomputable def calcular_vector_direccion (origen destino : Point) : Point × ℝ :=
  let vector : Point := (destino.1 - origen.1, destino.2 - origen.2)
  let magnitud : ℝ := norma vector
  if magnitud > 0 then ((vector.1 / magnitud, vector.2 / magnitud), magnitud)
  else (((0 : ℝ), (0 : ℝ)), magnitud)

/-- Path-loss RSSI model of the octonodal simulator, `calcular_rssi`:
for a positive distance
`rssi = potencia_tx - (perdida_ref + 10 * exponente * log10 d) + normal(0, 2)`
(the draw `normal(0, 2)` is `2 * z`); otherwise `potencia_tx` is returned
and no draw is made. -/
noncomputable def calcular_rssi (tx pr expn z d : ℝ) : ℝ :=
  if d > 0 then tx - (pr + 10 * expn * Real.logb 10 d) + 2 * z
  else tx

/-- Weighted resultant vector, `calcular_vector_resultante`: linear weights
`10 ** (peso / 10)`, accumulation of `vector * weight` into a running sum,
normalization when the magnitude of the sum is positive. -/
noncomputable def calcular_vector_resultante (vectores : List Point) (pesos : List ℝ) :
    Point :=
  let pesos_lineales : List ℝ := pesos.map (fun p => (10 : ℝ) ^ (p / 10))
  let resultante : Point :=
    (vectores.zip pesos_lineales).foldl
      (fun acc vw => (acc.1 + vw.1.1 * vw.2, acc.2 + vw.1.2 * vw.2))
      ((0 : ℝ), (0 : ℝ))
  let magnitud : ℝ := norma resultante
  if magnitud > 0 then (resultante.1 / magnitud, resultante.2 / magnitud)
  else resultante

/-- Per-frame direction estimate of `actualizar_frame` (lines 287-289 and
308-309): direction vectors `calcular_vector_direccion(nodo_fijo, movil)`,
resultant `calcular_vector_resultante(vectores, rssis)`, bearing
`arctan2(res.y, res.x) * 180 / pi`. -/
noncomputable def estimar (movil : Point) (anclas : List Point) (rssis : List ℝ) :
    Point × ℝ :=
  let vectores : List Point := anclas.map (fun a => (calcular_vector_direccion a movil).1)
  let resultante : Point := calcular_vector_resultante vectores rssis
  (resultante, arctan2 resultante.2 resultante.1 * 180 / Real.pi)

end Octonodo

/-- Modelled from the spec (claim C1, step 1): unit vector from the anchor to
the mobile position, the zero vector when the magnitude equals zero. -/
noncomputable def vector_unitario_spec (ancla movil : Point) : Point :=
  let v : Point := (movil.1 - ancla.1, movil.2 - ancla.2)
  if norma v = 0 then ((0 : ℝ), (0 : ℝ)) else (v.1 / norma v, v.2 / norma v)

/-- Modelled from the spec (claim C1, step 3): the weighted sum
of the unit vectors. -/
noncomputable def suma_ponderada_spec (unidades : List Point) (pesos : List ℝ) : Point :=
  ((unidades.zip pesos).map (fun uw => (uw.1.1 * uw.2, uw.1.2 * uw.2))).foldr
    (fun a b => (a.1 + b.1, a.2 + b.2)) ((0 : ℝ), (0 : ℝ))

/-- Modelled from the spec (claim C1): the five-step estimate algorithm;
weights `10 ^ (rssi / 10)`, normalization when the norm of the sum is
positive, otherwise the zero vector, bearing
`atan2(res.y, res.x) * 180 / pi`. -/
noncomputable def estimar_spec (movil : Point) (anclas : List Point) (rssis : List ℝ) :
    Point × ℝ :=
  let unidades : List Point := anclas.map (fun a => vector_unitario_spec a movil)
  let pesos : List ℝ := rssis.map (fun r => (10 : ℝ) ^ (r / 10))
  let suma : Point := suma_ponderada_spec unidades pesos
  let resultante : Point :=
    if norma suma > 0 then (suma.1 / norma suma, suma.2 / norma suma)
    else ((0 : ℝ), (0 : ℝ))
  (resultante, arctan2 resultante.2 resultante.1 * 180 / Real.pi)

lemma norma_nonneg (v : Point) : 0 ≤ norma v := Real.sqrt_nonneg _

lemma norma_eq_zero_iff (v : Point) : norma v = 0 ↔ v = ((0 : ℝ), (0 : ℝ)) := by
  constructor
  · intro h
    have hle : v.1 ^ 2 + v.2 ^ 2 ≤ 0 := by
      have := Real.sqrt_eq_zero'.mp h
      exact this
    have h1 : v.1 = 0 := by nlinarith [sq_nonneg v.1, sq_nonneg v.2]
    have h2 : v.2 = 0 := by nlinarith [sq_nonneg v.1, sq_nonneg v.2]
    have hv : v = (v.1, v.2) := rfl
    rw [hv, h1, h2]
  · intro h
    rw [h]
    unfold norma
    norm_num

lemma norma_pos_of_ne_zero {v : Point} (h : ¬ norma v = 0) : norma v > 0 :=
  lt_of_le_of_ne (norma_nonneg v) (Ne.symm h)

lemma vector_direccion_eq_spec (a m : Point) :
    (Octonodo.calcular_vector_direccion a m).1 = vector_unitario_spec a m := by
  unfold Octonodo.calcular_vector_direccion vector_unitario_spec
  by_cases h : norma (m.1 - a.1, m.2 - a.2) = 0
  · rw [if_neg (by rw [h]; exact lt_irrefl 0), if_pos h]
  · rw [if_pos (norma_pos_of_ne_zero h), if_neg h]

lemma foldl_eq_suma : ∀ (u : List Point) (w : List ℝ) (acc : Point),
    (u.zip w).foldl (fun acc vw => (acc.1 + vw.1.1 * vw.2, acc.2 + vw.1.2 * vw.2)) acc
      = (acc.1 + (suma_ponderada_spec u w).1, acc.2 + (suma_ponderada_spec u w).2) := by
  intro u
  induction u with
  | nil =>
    intro w acc
    simp [suma_ponderada_spec]
  | cons hd tl ih =>
    intro w acc
    cases w with
    | nil => simp [suma_ponderada_spec]
    | cons wh wt =>
      simp only [List.zip_cons_cons, List.foldl_cons, ih wt]
      simp only [suma_ponderada_spec, List.zip_cons_cons, List.map_cons, List.foldr_cons]
      simp only [Prod.mk.injEq]
      constructor <;> ring

/-- Claim C1: the direction estimate of the octonodal simulator follows
exactly the five-step algorithm of the spec: unit vectors from each anchor
to the mobile position (zero when they coincide), linear weights
`10 ^ (rssi / 10)`, weighted vector sum, normalization when the norm of the
sum is positive (zero vector otherwise), bearing
`atan2(res.y, res.x) * 180 / pi`. -/
theorem C1_estimador_sigue_spec (movil : Point) (anclas : List Point) (rssis : List ℝ) :
    Octonodo.estimar movil anclas rssis = estimar_spec movil anclas rssis := by
  unfold Octonodo.estimar estimar_spec Octonodo.calcular_vector_resultante
  simp only [vector_direccion_eq_spec]
  rw [foldl_eq_suma]
  simp only [zero_add]
  set S : Point :=
    suma_ponderada_spec (anclas.map (fun a => vector_unitario_spec a movil))
      (rssis.map (fun r => (10 : ℝ) ^ (r / 10))) with hS
  by_cases h : norma S = 0
  · have hz : S = ((0 : ℝ), (0 : ℝ)) := (norma_eq_zero_iff S).mp h
    have hnotpos : ¬ norma (S.1, S.2) > 0 := by
      rw [show ((S.1, S.2) : Point) = S from rfl, h]
      exact lt_irrefl 0
    rw [if_neg hnotpos, if_neg (by rw [h]; exact lt_irrefl 0)]
    rw [show ((S.1, S.2) : Point) = S from rfl, hz]
  · have hpos : norma S > 0 := norma_pos_of_ne_zero h
    have hpos2 : norma (S.1, S.2) > 0 := by
      rw [show ((S.1, S.2) : Point) = S from rfl]; exact hpos
    rw [if_pos hpos2, if_pos hpos]

lemma norma_uno_cero : norma ((1 : ℝ), (0 : ℝ)) = 1 := by
  unfold norma
  rw [show ((1 : ℝ) ^ 2 + (0 : ℝ) ^ 2) = 1 by norm_num, Real.sqrt_one]

lemma arctan2_cero_uno : arctan2 0 1 = 0 := by
  unfold arctan2
  rw [if_pos (by norm_num : (0 : ℝ) < 1)]
  rw [show ((0 : ℝ) / 1) = 0 by norm_num, Real.arctan_zero]

lemma estimar_un_ancla (r : ℝ) :
    Octonodo.estimar ((1 : ℝ), (0 : ℝ)) [((0 : ℝ), (0 : ℝ))] [r]
      = ((((1 : ℝ), (0 : ℝ)) : Point), (0 : ℝ)) := by
  have hw : (0 : ℝ) < (10 : ℝ) ^ (r / 10) := Real.rpow_pos_of_pos (by norm_num) _
  have hdir : (Octonodo.calcular_vector_direccion ((0 : ℝ), (0 : ℝ)) ((1 : ℝ), (0 : ℝ))).1
      = (((1 : ℝ), (0 : ℝ)) : Point) := by
    unfold Octonodo.calcular_vector_direccion
    simp only [sub_zero]
    rw [if_pos (by rw [norma_uno_cero]; norm_num)]
    rw [norma_uno_cero]
    norm_num
  have hres : Octonodo.calcular_vector_resultante [((1 : ℝ), (0 : ℝ))] [r]
      = (((1 : ℝ), (0 : ℝ)) : Point) := by
    unfold Octonodo.calcular_vector_resultante
    simp only [List.map_cons, List.map_nil, List.zip_cons_cons, List.zip_nil_right,
      List.foldl_cons, List.foldl_nil]
    rw [show ((0 : ℝ) + 1 * (10 : ℝ) ^ (r / 10)) = (10 : ℝ) ^ (r / 10) from by ring]
    rw [show ((0 : ℝ) + 0 * (10 : ℝ) ^ (r / 10)) = (0 : ℝ) from by ring]
    have hn : norma (((10 : ℝ) ^ (r / 10), (0 : ℝ)) : Point) = (10 : ℝ) ^ (r / 10) := by
      unfold norma
      rw [show ((10 : ℝ) ^ (r / 10)) ^ 2 + (0 : ℝ) ^ 2 = ((10 : ℝ) ^ (r / 10)) ^ 2 by ring]
      exact Real.sqrt_sq hw.le
    rw [hn, if_pos hw]
    rw [div_self (ne_of_gt hw), zero_div]
  unfold Octonodo.estimar
  simp only [List.map_cons, List.map_nil, hdir, hres]
  rw [arctan2_cero_uno]
  norm_num

/-- Claim C2 counterexample: for a single anchor at the origin and the mobile
node at `(1, 0)`, the estimate is not the pair claimed (resultant `(-1, 0)`,
bearing `180`): the unit vectors of the code point from the anchor toward
the mobile node, so the resultant is `(1, 0)` and the bearing is `0`. -/
theorem C2_counterexample :
    Octonodo.estimar ((1 : ℝ), (0 : ℝ)) [((0 : ℝ), (0 : ℝ))] [(0 : ℝ)]
      ≠ ((((-1 : ℝ), (0 : ℝ)) : Point), (180 : ℝ)) := by
  rw [estimar_un_ancla 0]
  intro h
  have h1 := congrArg (fun p => p.1.1) h
  norm_num at h1

/-- Claim C2 amended: for a single anchor at `(0,0)` and the mobile node at
`(1,0)`, whatever RSSI value is measured, the estimate has resultant vector
`(1, 0)` (pointing from the anchor toward the mobile node) and bearing
exactly `0.0` degrees. -/
theorem C2_un_ancla_resultante (r : ℝ) :
    Octonodo.estimar ((1 : ℝ), (0 : ℝ)) [((0 : ℝ), (0 : ℝ))] [r]
      = ((((1 : ℝ), (0 : ℝ)) : Point), (0 : ℝ)) :=
  estimar_un_ancla r

namespace Interiores

/-- Width of the indoor space in meters (`self.ancho`). -/
noncomputable def ancho : ℝ := 20

/-- Height of the indoor space in meters (`self.alto`). -/
noncomputable def alto : ℝ := 15

/-- Indoor path loss exponent (`self.n`). -/
noncomputable def n : ℝ := 2.5

/-- Standard deviation of the RSSI noise in dB (`self.sigma`). -/
noncomputable def sigma : ℝ := 3.0

/-- The four fixed access points of the indoor simulator
(`self.nodos_fijos`), placed in the corridors. -/
noncomputable def nodos_fijos : List Point :=
  [((1 : ℝ), (1 : ℝ)), (ancho - 1, 1), (ancho - 1, alto - 1), (1, alto - 1)]

/-- Distance between two points, `calcular_distancia_con_obstaculos`:
plain Euclidean distance `sqrt((x1 - x2)^2 + (y1 - y2)^2)`. -/
noncomputable def calcular_distancia_con_obstaculos (p1 p2 : Point) : ℝ :=
  Real.sqrt ((p1.1 - p2.1) ^ 2 + (p1.2 - p2.2) ^ 2)

/-- Indoor propagation model, `calcular_rssi`:
`rssi = -10 * n * log10 d + normal(0, sigma)` with no guard on the sign of
the distance; the draw `normal(0, s)` is `s * z`.  For a non-positive
distance `np.log10` yields no real value (nan or -inf), modelled by `none`. -/
noncomputable def calcular_rssi (n s z d : ℝ) : Option ℝ :=
  if d > 0 then some (-10 * n * Real.logb 10 d + s * z) else none

/-- Position of the mobile node in `actualizar` (lines 174-189): four
piecewise-linear corridor segments selected by plain comparisons of the
frame number against 50, 100 and 150; there is no reduction of the frame
modulo 200 and the last branch covers every frame from 150 on. -/
noncomputable def posicion_pasillo (ancho alto frame : ℝ) : Point :=
  if frame < 50 then (1 + (frame / 50) * (ancho - 2), 1)
  else if frame < 100 then (ancho - 1, 1 + ((frame - 50) / 50) * (alto - 2))
  else if frame < 150 then (ancho - 1 - ((frame - 100) / 50) * (ancho - 2), alto - 1)
  else (1, alto - 1 - ((frame - 150) / 50) * (alto - 2))

/-- Per-anchor measurement of `actualizar` (lines 200-207): the distance is
the true Euclidean distance and the propagation model is applied to that
same true distance; the Gaussian noise enters the RSSI value, never the
distance. -/
noncomputable def medida (movil ancla : Point) (z : ℝ) : ℝ × Option ℝ :=
  let distancia : ℝ := calcular_distancia_con_obstaculos movil ancla
  let rssi : Option ℝ := calcular_rssi n sigma z distancia
  (distancia, rssi)

end Interiores

/-- Per-anchor measurement of `actualizar_frame` in the octonodal simulator
(lines 283-289): true distance, measured distance
`true + normal(0, error_medicion)` (the draw is `error_medicion * zd`), and
RSSI from the measured distance. -/
noncomputable def Octonodo.medida (movil ancla : Point) (zd zr : ℝ) : ℝ × ℝ :=
  let distancia_real : ℝ := calcular_distancia movil ancla
  let distancia_medida : ℝ := distancia_real + error_medicion * zd
  (distancia_medida,
   calcular_rssi potencia_tx perdida_ref exponente_perdida zr distancia_medida)

/-- Modelled from the spec (claim C4): the per-anchor pipeline the claim
describes for the octonodal simulator — true Euclidean distance, noisy
distance `true + normal(0, s)`, propagation model applied to the noisy
distance. -/
noncomputable def medida_spec_oct (movil ancla : Point) (s zd zr : ℝ) : ℝ × ℝ :=
  let distancia_real : ℝ := Octonodo.calcular_distancia movil ancla
  let distancia_ruidosa : ℝ := distancia_real + s * zd
  (distancia_ruidosa,
   Octonodo.calcular_rssi Octonodo.potencia_tx Octonodo.perdida_ref
     Octonodo.exponente_perdida zr distancia_ruidosa)

/-- Modelled from the spec (claim C4): the per-anchor pipeline the claim
describes for the indoor simulator — true Euclidean distance, noisy
distance `true + normal(0, s)`, propagation model applied to the noisy
distance. -/
noncomputable def medida_spec_int (movil ancla : Point) (s zd zr : ℝ) : ℝ × Option ℝ :=
  let distancia_real : ℝ := Interiores.calcular_distancia_con_obstaculos movil ancla
  let distancia_ruidosa : ℝ := distancia_real + s * zd
  (distancia_ruidosa, Interiores.calcular_rssi Interiores.n Interiores.sigma zr distancia_ruidosa)

/-- Claim C3 counterexample: the free-space variant (indoor simulator) has no
degenerate-case guard: at distance `0` it evaluates `log10 0`, which has no
real value, instead of returning the transmit power. -/
theorem C3_counterexample : Interiores.calcular_rssi 2.5 3 0 0 = none := by
  unfold Interiores.calcular_rssi
  rw [if_neg (by norm_num : ¬ ((0 : ℝ) > 0))]

/-- Claim C3 amended: for every distance `d ≤ 0` the reference-loss variant
(octonodal simulator) returns exactly the transmit power without touching
the logarithm, while the free-space variant (indoor simulator) has no guard
and produces no real value. -/
theorem C3_rssi_distancia_no_positiva (d : ℝ) (hd : d ≤ 0)
    (tx pr expn z nf s zf : ℝ) :
    Octonodo.calcular_rssi tx pr expn z d = tx ∧
    Interiores.calcular_rssi nf s zf d = none := by
  have h : ¬ (d > 0) := not_lt.mpr hd
  unfold Octonodo.calcular_rssi Interiores.calcular_rssi
  rw [if_neg h, if_neg h]
  exact ⟨rfl, rfl⟩

/-- Witness for claim C3 at the concrete distance `-2`. -/
theorem C3_rssi_distancia_no_positiva_witness :
    ((-2 : ℝ) ≤ 0) ∧
    (Octonodo.calcular_rssi 5 40 2 7 (-2) = 5 ∧
     Interiores.calcular_rssi 2.5 3 1 (-2) = none) :=
  ⟨by norm_num, C3_rssi_distancia_no_positiva (-2) (by norm_num) 5 40 2 7 2.5 3 1⟩

lemma distancia_tres_cuatro :
    Interiores.calcular_distancia_con_obstaculos ((0 : ℝ), (0 : ℝ)) ((3 : ℝ), (4 : ℝ)) = 5 := by
  unfold Interiores.calcular_distancia_con_obstaculos
  rw [show ((0 : ℝ) - 3) ^ 2 + ((0 : ℝ) - 4) ^ 2 = 5 ^ 2 by norm_num]
  exact Real.sqrt_sq (by norm_num)

/-- Claim C4 counterexample: for the mobile node at the origin, the anchor at
`(3, 4)` (true distance `5`) and a distance-noise draw of `5`, the indoor
measurement differs from the pipeline the claim describes: the code records
the true distance `5` and feeds it to the propagation model, while the
claimed pipeline records the noisy distance `10` and feeds that. -/
theorem C4_counterexample :
    Interiores.medida ((0 : ℝ), (0 : ℝ)) ((3 : ℝ), (4 : ℝ)) 0
      ≠ medida_spec_int ((0 : ℝ), (0 : ℝ)) ((3 : ℝ), (4 : ℝ)) 1 5 0 := by
  intro h
  have h1 := congrArg Prod.fst h
  unfold Interiores.medida medida_spec_int at h1
  simp only at h1
  rw [distancia_tres_cuatro] at h1
  norm_num at h1

/-- Claim C4 amended: the octonodal pipeline is exactly the claimed one with
distance-noise deviation `error_medicion = 0.2` (true distance, Gaussian
perturbation, propagation model applied to the noisy distance), while the
indoor pipeline matches the claimed one only with the distance-noise
deviation forced to `0`: it applies the propagation model to the true
distance and never forms a noisy distance. -/
theorem C4_tuberia_de_medicion (movil ancla : Point) (zd zr : ℝ) :
    Octonodo.medida movil ancla zd zr
      = medida_spec_oct movil ancla Octonodo.error_medicion zd zr ∧
    ∀ zd2 : ℝ, Interiores.medida movil ancla zr
      = medida_spec_int movil ancla 0 zd2 zr := by
  constructor
  · rfl
  · intro zd2
    unfold Interiores.medida medida_spec_int
    simp only [zero_mul, add_zero]

lemma getD_range_map {α : Type} (d : α) :
    ∀ (n : ℕ) (f : ℕ → α) (i : ℕ), i < n → ((List.range n).map f).getD i d = f i := by
  intro n
  induction n with
  | zero => intro f i hi; exact absurd hi (Nat.not_lt_zero i)
  | succ m ih =>
    intro f i hi
    rw [List.range_succ_eq_map, List.map_cons, List.map_map]
    cases i with
    | zero => rfl
    | succ j =>
      rw [List.getD_cons_succ]
      exact ih (f ∘ Nat.succ) j (by omega)

lemma generar_getD (num : ℕ) (c : Point) (R : ℝ) (i : ℕ) (hi : i < num) :
    (Octonodo.generar_nodos_circulares num c R).getD i ((0 : ℝ), (0 : ℝ))
      = (c.1 + R * Real.cos (2 * Real.pi * i / num),
         c.2 + R * Real.sin (2 * Real.pi * i / num)) := by
  unfold Octonodo.generar_nodos_circulares
  exact getD_range_map (((0 : ℝ), (0 : ℝ)) : Point) num
    (fun j => ((c.1 + R * Real.cos (2 * Real.pi * j / num),
                c.2 + R * Real.sin (2 * Real.pi * j / num)) : Point)) i hi

/-- Claim C7: the circular layout with `N ≥ 3` anchors and radius `R ≥ 0`
produces exactly `N` anchors, anchor `i` sits at angle `2*pi*i/N` (starting
at angle `0`) at Euclidean distance `R` from the center, and consecutive
angles are separated by `2*pi/N` radians, that is `360/N` degrees. -/
theorem C7_distribucion_circular (N : ℕ) (R : ℝ) (c : Point)
    (hN : 3 ≤ N) (hR : 0 ≤ R) :
    (Octonodo.generar_nodos_circulares N c R).length = N ∧
    (∀ i : ℕ, i < N →
      (Octonodo.generar_nodos_circulares N c R).getD i ((0 : ℝ), (0 : ℝ))
        = (c.1 + R * Real.cos (2 * Real.pi * i / N),
           c.2 + R * Real.sin (2 * Real.pi * i / N)) ∧
      Octonodo.calcular_distancia
        ((Octonodo.generar_nodos_circulares N c R).getD i ((0 : ℝ), (0 : ℝ))) c = R) ∧
    (∀ i : ℕ, (2 * Real.pi * (i + 1) / N - 2 * Real.pi * i / N) * (180 / Real.pi)
        = 360 / N) := by
  have hNreal : (N : ℝ) ≠ 0 := by
    have : (0 : ℝ) < N := by exact_mod_cast Nat.lt_of_lt_of_le (by norm_num) hN
    exact ne_of_gt this
  refine ⟨?_, ?_, ?_⟩
  · unfold Octonodo.generar_nodos_circulares
    rw [List.length_map, List.length_range]
  · intro i hi
    refine ⟨generar_getD N c R i hi, ?_⟩
    rw [generar_getD N c R i hi]
    unfold Octonodo.calcular_distancia
    rw [show (c.1 + R * Real.cos (2 * Real.pi * i / N) - c.1) ^ 2
          + (c.2 + R * Real.sin (2 * Real.pi * i / N) - c.2) ^ 2
        = R ^ 2 * (Real.sin (2 * Real.pi * i / N) ^ 2
          + Real.cos (2 * Real.pi * i / N) ^ 2) from by ring]
    rw [Real.sin_sq_add_cos_sq, mul_one]
    exact Real.sqrt_sq hR
  · intro i
    have hπ : Real.pi ≠ 0 := Real.pi_ne_zero
    field_simp
    ring

/-- Witness for claim C7 with four anchors of radius two around the origin. -/
theorem C7_distribucion_circular_witness :
    ((3 : ℕ) ≤ 4 ∧ (0 : ℝ) ≤ 2) ∧
    ((Octonodo.generar_nodos_circulares 4 ((0 : ℝ), (0 : ℝ)) 2).length = 4 ∧
     (∀ i : ℕ, i < 4 →
       (Octonodo.generar_nodos_circulares 4 ((0 : ℝ), (0 : ℝ)) 2).getD i ((0 : ℝ), (0 : ℝ))
         = ((0 : ℝ) + 2 * Real.cos (2 * Real.pi * i / ((4 : ℕ) : ℝ)),
            (0 : ℝ) + 2 * Real.sin (2 * Real.pi * i / ((4 : ℕ) : ℝ))) ∧
       Octonodo.calcular_distancia
         ((Octonodo.generar_nodos_circulares 4 ((0 : ℝ), (0 : ℝ)) 2).getD i
           ((0 : ℝ), (0 : ℝ))) ((0 : ℝ), (0 : ℝ)) = 2) ∧
     (∀ i : ℕ, (2 * Real.pi * (i + 1) / ((4 : ℕ) : ℝ) - 2 * Real.pi * i / ((4 : ℕ) : ℝ))
         * (180 / Real.pi) = 360 / ((4 : ℕ) : ℝ))) :=
  ⟨⟨by norm_num, by norm_num⟩,
   C7_distribucion_circular 4 2 ((0 : ℝ), (0 : ℝ)) (by norm_num) (by norm_num)⟩

/-- Position of the mobile node in `actualizar_frame` of the octonodal
simulator (lines 272-273): a circular orbit
`centro_trayectoria + radio_trayectoria * (sin(t * v), cos(t * v))`. -/
noncomputable def Octonodo.posicion_movil (t : ℝ) : Point :=
  (centro_trayectoria.1 + radio_trayectoria * Real.sin (t * velocidad_trayectoria),
   centro_trayectoria.2 + radio_trayectoria * Real.cos (t * velocidad_trayectoria))

/-- Modelled from the spec (claim C8): the four-phase corridor motion, phase
`p` selected by `t / 50` (0 bottom, 1 right, 2 top, 3 left) with offset
`s = t % 50`, margin `1`, segment length `50`; each phase interpolates one
coordinate linearly across `[margin, dimension - margin]` while the other
stays fixed at the margin or at the far edge. -/
noncomputable def fase_corredor_spec (ancho alto : ℝ) (p s : ℕ) : Point :=
  if p = 0 then (1 + ((s : ℝ) / 50) * ((ancho - 1) - 1), 1)
  else if p = 1 then (ancho - 1, 1 + ((s : ℝ) / 50) * ((alto - 1) - 1))
  else if p = 2 then (ancho - 1 - ((s : ℝ) / 50) * ((ancho - 1) - 1), alto - 1)
  else (1, alto - 1 - ((s : ℝ) / 50) * ((alto - 1) - 1))

/-- Claim C8 counterexample: the corridor position is not determined by the
step modulo `4 * 50`: steps `201` and `1` are congruent modulo `200` but
give different positions, because the code never reduces the frame number
and its last branch keeps extrapolating for every frame from `150` on. -/
theorem C8_counterexample :
    (201 % (4 * 50) = 1) ∧
    Interiores.posicion_pasillo 20 15 201 ≠ Interiores.posicion_pasillo 20 15 1 := by
  refine ⟨by norm_num, ?_⟩
  intro h
  have h1 := congrArg Prod.fst h
  unfold Interiores.posicion_pasillo at h1
  norm_num at h1

/-- Claim C8 amended: for every step `t < 4 * 50` the corridor position is the
four-phase piecewise-linear motion with phase index `t / 50` and offset
`t % 50`, each phase interpolating one coordinate across
`[margin, dimension - margin]` (margin `1`) while the other stays at the
margin or the far edge; beyond `t = 200` the code does not wrap around. -/
theorem C8_pasillo_por_fases (t : ℕ) (ht : t < 4 * 50) :
    Interiores.posicion_pasillo 20 15 (t : ℝ)
      = fase_corredor_spec 20 15 (t / 50) (t % 50) := by
  have h4 : t < 50 ∨ (50 ≤ t ∧ t < 100) ∨ (100 ≤ t ∧ t < 150) ∨ (150 ≤ t ∧ t < 200) := by
    omega
  unfold Interiores.posicion_pasillo fase_corredor_spec
  rcases h4 with h | ⟨h1, h2⟩ | ⟨h1, h2⟩ | ⟨h1, h2⟩
  · have hp : t / 50 = 0 := by omega
    have hm : t % 50 = t := by omega
    have hr : (t : ℝ) < 50 := by exact_mod_cast h
    rw [hp, hm, if_pos hr, if_pos rfl]
    norm_num
  · have hp : t / 50 = 1 := by omega
    have hm : t % 50 = t - 50 := by omega
    have hr1 : ¬ ((t : ℝ) < 50) := not_lt.mpr (by exact_mod_cast h1)
    have hr2 : (t : ℝ) < 100 := by exact_mod_cast h2
    rw [hp, hm, if_neg hr1, if_pos hr2, if_neg (by norm_num : ¬ (1 = 0)), if_pos rfl]
    rw [Nat.cast_sub h1]
    norm_num
  · have hp : t / 50 = 2 := by omega
    have hm : t % 50 = t - 100 := by omega
    have h50 : (50 : ℕ) ≤ t := by omega
    have hr1 : ¬ ((t : ℝ) < 50) := not_lt.mpr (by exact_mod_cast h50)
    have hr2 : ¬ ((t : ℝ) < 100) := not_lt.mpr (by exact_mod_cast h1)
    have hr3 : (t : ℝ) < 150 := by exact_mod_cast h2
    rw [hp, hm, if_neg hr1, if_neg hr2, if_pos hr3,
      if_neg (by norm_num : ¬ (2 = 0)), if_neg (by norm_num : ¬ (2 = 1)), if_pos rfl]
    rw [Nat.cast_sub h1]
    norm_num
  · have hp : t / 50 = 3 := by omega
    have hm : t % 50 = t - 150 := by omega
    have h50 : (50 : ℕ) ≤ t := by omega
    have h100 : (100 : ℕ) ≤ t := by omega
    have hr1 : ¬ ((t : ℝ) < 50) := not_lt.mpr (by exact_mod_cast h50)
    have hr2 : ¬ ((t : ℝ) < 100) := not_lt.mpr (by exact_mod_cast h100)
    have hr3 : ¬ ((t : ℝ) < 150) := not_lt.mpr (by exact_mod_cast h1)
    rw [hp, hm, if_neg hr1, if_neg hr2, if_neg hr3,
      if_neg (by norm_num : ¬ (3 = 0)), if_neg (by norm_num : ¬ (3 = 1)),
      if_neg (by norm_num : ¬ (3 = 2))]
    rw [Nat.cast_sub h1]
    norm_num

/-- Witness for claim C8 at the concrete step `75` (right corridor, phase 1,
offset 25). -/
theorem C8_pasillo_por_fases_witness :
    (75 < 4 * 50) ∧
    Interiores.posicion_pasillo 20 15 ((75 : ℕ) : ℝ)
      = fase_corredor_spec 20 15 (75 / 50) (75 % 50) :=
  ⟨by norm_num, C8_pasillo_por_fases 75 (by norm_num)⟩

lemma radio_nodos_pos : 0 < Octonodo.radio_nodos := by
  unfold Octonodo.radio_nodos Octonodo.separacion_lambda Octonodo.lambda_m
    Octonodo.frecuencia_ghz
  have hsin : 0 < Real.sin (Real.pi / 8) :=
    Real.sin_pos_of_pos_of_lt_pi (by positivity) (by linarith [Real.pi_pos])
  exact div_pos (by norm_num) (by linarith)

lemma radio_trayectoria_nonneg : 0 ≤ Octonodo.radio_trayectoria := by
  unfold Octonodo.radio_trayectoria
  nlinarith [radio_nodos_pos]

/-- Claim C9 counterexample: at the negative step index `-1` the corridor
trajectory does not fail with any error: the code has no InvalidStepError
and the first branch simply extrapolates, returning the point
`(16/25, 1)`. -/
theorem C9_counterexample :
    Interiores.posicion_pasillo 20 15 (-1) = ((16 / 25 : ℝ), (1 : ℝ)) := by
  unfold Interiores.posicion_pasillo
  rw [if_pos (by norm_num : (-1 : ℝ) < 50)]
  norm_num

/-- Claim C9 amended: the trajectory generators are total deterministic
side-effect-free functions of the step index: for every real `t` — negative
and non-integer values included — the corridor trajectory returns one of
its four branch values (never an error; no InvalidStepError exists in the
code) and the circular orbit returns a point at distance
`radio_trayectoria` from the trajectory center. -/
theorem C9_posicion_total (t : ℝ) :
    (Interiores.posicion_pasillo 20 15 t = (1 + (t / 50) * (20 - 2), 1) ∨
     Interiores.posicion_pasillo 20 15 t = (20 - 1, 1 + ((t - 50) / 50) * (15 - 2)) ∨
     Interiores.posicion_pasillo 20 15 t
       = (20 - 1 - ((t - 100) / 50) * (20 - 2), 15 - 1) ∨
     Interiores.posicion_pasillo 20 15 t = (1, 15 - 1 - ((t - 150) / 50) * (15 - 2))) ∧
    Octonodo.calcular_distancia (Octonodo.posicion_movil t) Octonodo.centro_trayectoria
      = Octonodo.radio_trayectoria := by
  constructor
  · unfold Interiores.posicion_pasillo
    split_ifs
    · exact Or.inl rfl
    · exact Or.inr (Or.inl rfl)
    · exact Or.inr (Or.inr (Or.inl rfl))
    · exact Or.inr (Or.inr (Or.inr rfl))
  · unfold Octonodo.posicion_movil Octonodo.calcular_distancia
      Octonodo.centro_trayectoria Octonodo.centro_nodos
    rw [show ((0 : ℝ) + Octonodo.radio_trayectoria
            * Real.sin (t * Octonodo.velocidad_trayectoria) - 0) ^ 2
          + ((0 : ℝ) + Octonodo.radio_trayectoria
            * Real.cos (t * Octonodo.velocidad_trayectoria) - 0) ^ 2
        = Octonodo.radio_trayectoria ^ 2
          * (Real.sin (t * Octonodo.velocidad_trayectoria) ^ 2
            + Real.cos (t * Octonodo.velocidad_trayectoria) ^ 2) from by ring]
    rw [Real.sin_sq_add_cos_sq, mul_one]
    exact Real.sqrt_sq radio_trayectoria_nonneg

namespace Interiores

/-- Histories of the indoor simulator: one distance history and one RSSI
history per fixed node (dictionaries `distancias_historicas` and
`rssi_historicos`, keyed in node order). -/
structure Historiales where
  distHist : List (List ℝ)
  rssiHist : List (List (Option ℝ))

/-- Fresh histories: empty lists for the four fixed nodes. -/
def historiales_iniciales : Historiales :=
  ⟨[[], [], [], []], [[], [], [], []]⟩

/-- Data core of one call of `actualizar` (lines 170-207): move the mobile
node along the corridor for the given frame, then for every fixed node
append the true distance to its distance history and the RSSI computed from
that same distance (noise draw `z i`) to its RSSI history. -/
noncomputable def actualizar (z : ℕ → ℝ) (frame : ℕ) (s : Historiales) : Historiales :=
  let movil := posicion_pasillo ancho alto (frame : ℝ)
  { distHist := (List.range 4).map (fun i =>
      s.distHist.getD i []
        ++ [calcular_distancia_con_obstaculos movil
              (nodos_fijos.getD i ((0 : ℝ), (0 : ℝ)))]),
    rssiHist := (List.range 4).map (fun i =>
      s.rssiHist.getD i []
        ++ [calcular_rssi n sigma (z i)
              (calcular_distancia_con_obstaculos movil
                (nodos_fijos.getD i ((0 : ℝ), (0 : ℝ))))]) }

/-- The histories after `k` successive calls of `actualizar` with frames
`0, 1, ..., k-1` from the fresh state (`FuncAnimation` calls the update in
exactly this order). -/
noncomputable def correr (z : ℕ → ℕ → ℝ) : ℕ → Historiales
  | 0 => historiales_iniciales
  | k + 1 => actualizar (z k) k (correr z k)

end Interiores

/-- Claim C5: after `k` advances from a fresh configuration, the distance
history and the RSSI history of every anchor both have length exactly `k`:
the histories advance atomically, one entry per anchor per step, and never
desynchronize. -/
theorem C5_longitudes_historial (z : ℕ → ℕ → ℝ) (k i : ℕ) (hi : i < 4) :
    ((Interiores.correr z k).distHist.getD i []).length = k ∧
    ((Interiores.correr z k).rssiHist.getD i []).length = k := by
  induction k with
  | zero =>
    interval_cases i <;> exact ⟨rfl, rfl⟩
  | succ m ih =>
    simp only [Interiores.correr, Interiores.actualizar]
    rw [getD_range_map ([] : List ℝ) 4 _ i hi,
      getD_range_map ([] : List (Option ℝ)) 4 _ i hi]
    refine ⟨?_, ?_⟩
    · rw [List.length_append, ih.1]
      rfl
    · rw [List.length_append, ih.2]
      rfl

/-- Witness for claim C5: two advances leave both histories of anchor 1 with
length two. -/
theorem C5_longitudes_historial_witness :
    ((1 : ℕ) < 4) ∧
    (((Interiores.correr (fun _ _ => 0) 2).distHist.getD 1 []).length = 2 ∧
     ((Interiores.correr (fun _ _ => 0) 2).rssiHist.getD 1 []).length = 2) :=
  ⟨by norm_num, C5_longitudes_historial (fun _ _ => 0) 2 1 (by norm_num)⟩

namespace Octonodo

/-- Per-run state of the octonodal simulator data core: the animation frame
counter, the cursor into the stream of standard normal draws, the per-node
measured-distance histories (`distancias_historicas`), the stored
trajectory (`trayectoria_x`, `trayectoria_y`), and the per-frame sequences
of measurements `(distance, rssi)` and direction estimates that
`actualizar_frame` computes and displays. -/
structure Estado where
  frame : ℕ
  idx : ℕ
  distHist : List (List ℝ)
  trayectoria : List Point
  mediciones : List (List (ℝ × ℝ))
  estimaciones : List (Point × ℝ)

/-- Fresh state of the simulator: frame `0`, cursor `0` and empty
histories for the eight nodes. -/
def estado_inicial : Estado :=
  ⟨0, 0, [[], [], [], [], [], [], [], []], [], [], []⟩

/-- RSSI values of a list of measured distances, with the draws taken from
the stream in order: `calcular_rssi` consumes one standard normal draw per
positive distance (it draws only inside its `distancia > 0` branch);
returns the RSSI list together with the new cursor. -/
noncomputable def lista_rssi (stream : ℕ → ℝ) : ℕ → List ℝ → List ℝ × ℕ
  | idx, [] => ([], idx)
  | idx, d :: ds =>
    let r := calcular_rssi potencia_tx perdida_ref exponente_perdida (stream idx) d
    let idx2 := if d > 0 then idx + 1 else idx
    let rest := lista_rssi stream idx2 ds
    (r :: rest.1, rest.2)

/-- Data core of one call of `actualizar_frame` (lines 272-309): move the
mobile node along its orbit, compute the eight measured distances
`true + normal(0, error_medicion)` (one draw per node, in node order,
lines 283-284), compute the eight RSSI values from the measured distances
(line 289), append each measured distance to the history of its node
(lines 300-301) and the position to the trajectory, and record the
measurements and the direction estimate of the frame (lines 308-309). -/
noncomputable def paso (stream : ℕ → ℝ) (s : Estado) : Estado :=
  let movil := posicion_movil (s.frame : ℝ)
  let dMeds := (List.range 8).map (fun i =>
    calcular_distancia movil (nodos_fijos.getD i ((0 : ℝ), (0 : ℝ)))
      + error_medicion * stream (s.idx + i))
  let rs := lista_rssi stream (s.idx + 8) dMeds
  { frame := s.frame + 1
    idx := rs.2
    distHist := (List.range 8).map (fun i => s.distHist.getD i [] ++ [dMeds.getD i 0])
    trayectoria := s.trayectoria ++ [movil]
    mediciones := s.mediciones ++ [dMeds.zip rs.1]
    estimaciones := s.estimaciones ++ [estimar movil nodos_fijos rs.1] }

/-- One frame of the simulator as a relation between states, mirroring the
sequence of assignments of `actualizar_frame`. -/
def Paso (stream : ℕ → ℝ) (s t : Estado) : Prop :=
  ∃ movil dMeds rs,
    movil = posicion_movil (s.frame : ℝ) ∧
    dMeds = (List.range 8).map (fun i =>
      calcular_distancia movil (nodos_fijos.getD i ((0 : ℝ), (0 : ℝ)))
        + error_medicion * stream (s.idx + i)) ∧
    rs = lista_rssi stream (s.idx + 8) dMeds ∧
    t = { frame := s.frame + 1
          idx := rs.2
          distHist := (List.range 8).map (fun i =>
            s.distHist.getD i [] ++ [dMeds.getD i 0])
          trayectoria := s.trayectoria ++ [movil]
          mediciones := s.mediciones ++ [dMeds.zip rs.1]
          estimaciones := s.estimaciones ++ [estimar movil nodos_fijos rs.1] }

lemma paso_Paso (stream : ℕ → ℝ) (s : Estado) : Paso stream s (paso stream s) :=
  ⟨_, _, _, rfl, rfl, rfl, rfl⟩

lemma Paso_det {stream : ℕ → ℝ} {s t₁ t₂ : Estado}
    (h₁ : Paso stream s t₁) (h₂ : Paso stream s t₂) : t₁ = t₂ := by
  obtain ⟨m₁, d₁, r₁, hm₁, hd₁, hr₁, ht₁⟩ := h₁
  obtain ⟨m₂, d₂, r₂, hm₂, hd₂, hr₂, ht₂⟩ := h₂
  subst hm₁
  subst hd₁
  subst hr₁
  subst ht₁
  subst hm₂
  subst hd₂
  subst hr₂
  subst ht₂
  rfl

/-- The set of states reachable after exactly `k` frames from the fresh
state. -/
def Corre (stream : ℕ → ℝ) : ℕ → Estado → Prop
  | 0, s => s = estado_inicial
  | k + 1, s => ∃ t, Corre stream k t ∧ Paso stream t s

lemma Corre_unico (stream : ℕ → ℝ) :
    ∀ k s₁ s₂, Corre stream k s₁ → Corre stream k s₂ → s₁ = s₂ := by
  intro k
  induction k with
  | zero =>
    intro s₁ s₂ h₁ h₂
    have e₁ : s₁ = estado_inicial := h₁
    have e₂ : s₂ = estado_inicial := h₂
    rw [e₁, e₂]
  | succ m ih =>
    rintro s₁ s₂ ⟨t₁, hc₁, hp₁⟩ ⟨t₂, hc₂, hp₂⟩
    obtain rfl := ih t₁ t₂ hc₁ hc₂
    exact Paso_det hp₁ hp₂

end Octonodo

/-- Claim C6: with the same injected stream of standard normal draws (the
sequence determined by the fixed RNG seed), any two runs of the same number
of frames from a fresh configuration reach the same state, so they produce
identical Measurement sequences and identical DirectionEstimate sequences:
the whole pipeline is deterministic up to the injected random source. -/
theorem C6_determinismo (stream : ℕ → ℝ) (k : ℕ) (s₁ s₂ : Octonodo.Estado)
    (h₁ : Octonodo.Corre stream k s₁) (h₂ : Octonodo.Corre stream k s₂) :
    s₁.mediciones = s₂.mediciones ∧ s₁.estimaciones = s₂.estimaciones := by
  have h := Octonodo.Corre_unico stream k s₁ s₂ h₁ h₂
  rw [h]
  exact ⟨rfl, rfl⟩

/-- Witness for claim C6: two one-frame runs with the zero draw stream agree
on their measurement and estimate sequences. -/
theorem C6_determinismo_witness :
    (Octonodo.paso (fun _ => 0) Octonodo.estado_inicial).mediciones
      = (Octonodo.paso (fun _ => 0) Octonodo.estado_inicial).mediciones ∧
    (Octonodo.paso (fun _ => 0) Octonodo.estado_inicial).estimaciones
      = (Octonodo.paso (fun _ => 0) Octonodo.estado_inicial).estimaciones :=
  C6_determinismo (fun _ => 0) 1 _ _
    ⟨Octonodo.estado_inicial, rfl,
      Octonodo.paso_Paso (fun _ => 0) Octonodo.estado_inicial⟩
    ⟨Octonodo.estado_inicial, rfl,
      Octonodo.paso_Paso (fun _ => 0) Octonodo.estado_inicial⟩

lemma paso_distHist (stream : ℕ → ℝ) (s : Octonodo.Estado) :
    (Octonodo.paso stream s).distHist
      = (List.range 8).map (fun i =>
          s.distHist.getD i []
            ++ [((List.range 8).map (fun j =>
                  Octonodo.calcular_distancia (Octonodo.posicion_movil (s.frame : ℝ))
                    (Octonodo.nodos_fijos.getD j ((0 : ℝ), (0 : ℝ)))
                    + Octonodo.error_medicion * stream (s.idx + j))).getD i 0]) := rfl

/-- Claim C10: at every frame, the value appended to the distance history of
node `i` is the measured distance — the true Euclidean distance plus the
draw `normal(0, error_medicion) = error_medicion * z` — and whenever the
draw is nonzero that appended value differs from the true distance, which
is not retained in any history. -/
theorem C10_historial_distancias (stream : ℕ → ℝ) (s : Octonodo.Estado) (i : ℕ)
    (hi : i < 8) (hz : stream (s.idx + i) ≠ 0) :
    (Octonodo.paso stream s).distHist.getD i []
      = s.distHist.getD i []
        ++ [Octonodo.calcular_distancia (Octonodo.posicion_movil (s.frame : ℝ))
              (Octonodo.nodos_fijos.getD i ((0 : ℝ), (0 : ℝ)))
            + Octonodo.error_medicion * stream (s.idx + i)] ∧
    Octonodo.calcular_distancia (Octonodo.posicion_movil (s.frame : ℝ))
        (Octonodo.nodos_fijos.getD i ((0 : ℝ), (0 : ℝ)))
      + Octonodo.error_medicion * stream (s.idx + i)
      ≠ Octonodo.calcular_distancia (Octonodo.posicion_movil (s.frame : ℝ))
          (Octonodo.nodos_fijos.getD i ((0 : ℝ), (0 : ℝ))) := by
  constructor
  · rw [paso_distHist, getD_range_map ([] : List ℝ) 8 _ i hi,
      getD_range_map (0 : ℝ) 8 _ i hi]
  · intro h
    have hzero : Octonodo.error_medicion * stream (s.idx + i) = 0 := by linarith
    have hme : Octonodo.error_medicion ≠ 0 := by
      unfold Octonodo.error_medicion
      norm_num
    rcases mul_eq_zero.mp hzero with h0 | h0
    · exact hme h0
    · exact hz h0

/-- Witness for claim C10: one frame from the fresh state with the constant
draw stream `1`, node `0`. -/
theorem C10_historial_distancias_witness :
    ((Octonodo.paso (fun _ => 1) Octonodo.estado_inicial).distHist.getD 0 []
      = Octonodo.estado_inicial.distHist.getD 0 []
        ++ [Octonodo.calcular_distancia
              (Octonodo.posicion_movil (Octonodo.estado_inicial.frame : ℝ))
              (Octonodo.nodos_fijos.getD 0 ((0 : ℝ), (0 : ℝ)))
            + Octonodo.error_medicion * (1 : ℝ)]) ∧
    Octonodo.calcular_distancia
        (Octonodo.posicion_movil (Octonodo.estado_inicial.frame : ℝ))
        (Octonodo.nodos_fijos.getD 0 ((0 : ℝ), (0 : ℝ)))
      + Octonodo.error_medicion * (1 : ℝ)
      ≠ Octonodo.calcular_distancia
          (Octonodo.posicion_movil (Octonodo.estado_inicial.frame : ℝ))
          (Octonodo.nodos_fijos.getD 0 ((0 : ℝ), (0 : ℝ))) :=
  C10_historial_distancias (fun _ => 1) Octonodo.estado_inicial 0 (by norm_num)
    (by norm_num)
